import Mathlib

/-!
Verification of the `ObjectDetection` video-annotation notebook
(`AI학습_YOLO.ipynb`, first two code cells).

The notebook reads a video frame by frame, scores each frame with a YOLOv5
model, draws bounding boxes and labels with OpenCV, writes the annotated
frames to an output video, and prints a progress line every 10 frames.

The embedding below models the procedural glue faithfully:

* the model call `score_frame` is treated as an oracle — each input frame
  comes paired with the detection rows the model returns for it;
* OpenCV drawing calls become an overlay list of draw operations carried by
  each frame;
* the wall-clock quantity `np.round(end_time - start_time, 3)` becomes a
  per-frame rational `dt` supplied with the input (the IEEE-float behaviour
  of `np.round` and of division by a float zero is outside this model);
* Python `int()` truncation toward zero becomes `pyInt`;
* the one division that genuinely raises in Python —
  `int(tfcc / tfc * 100)` with integer `tfc == 0` — becomes an explicit
  error outcome of the loop.
-/

/-- Python `int()` on a real-valued quantity: truncation toward zero. -/
def pyInt (q : ℚ) : ℤ := if 0 ≤ q then ⌊q⌋ else ⌈q⌉

/-- One OpenCV drawing call recorded on a frame's overlay. -/
inductive DrawOp where
  /-- `cv2.rectangle(frame, (x1, y1), (x2, y2), bgr, 3)` -/
  | rectangle (x1 y1 x2 y2 : ℤ)
  /-- `cv2.putText(frame, f"{int(row[4]*100)}", (x, y), ...)` -/
  | confLabel (v : ℤ) (x y : ℤ)
  /-- `cv2.putText(frame, f"Total Targets: {n}", (x, y), ...)` -/
  | totalTargets (n : ℕ) (x y : ℤ)
deriving DecidableEq

/-- A decoded frame: its dimensions (`frame.shape[1]`, `frame.shape[0]`)
and the overlay of drawing operations performed on it so far. -/
structure Frame where
  width : ℕ
  height : ℕ
  overlay : List DrawOp
deriving DecidableEq

/-- One detection row of `results.xyxyn[0]`: normalized box corners and
confidence (the class column is split off into `labels` by `score_frame`
and only its length is used). -/
structure Row where
  x1 : ℚ
  y1 : ℚ
  x2 : ℚ
  y2 : ℚ
  conf : ℚ
deriving DecidableEq

/-- `int(c * shape)` — denormalization of one coordinate in `plot_boxes`. -/
def denorm (c : ℚ) (shape : ℕ) : ℤ := pyInt (c * (shape : ℚ))

/-- The three drawing calls `plot_boxes` makes for one detection row:
rectangle, confidence label at the box's top-left corner, and the
"Total Targets" text (drawn inside the per-detection loop in the source). -/
def drawDetection (n : ℕ) (xs ys : ℕ) (row : Row) : List DrawOp :=
  [DrawOp.rectangle (denorm row.x1 xs) (denorm row.y1 ys)
      (denorm row.x2 xs) (denorm row.y2 ys),
   DrawOp.confLabel (pyInt (row.conf * 100)) (denorm row.x1 xs) (denorm row.y1 ys),
   DrawOp.totalTargets n 30 30]

/-- `ObjectDetection.plot_boxes`: for each of the `n = len(labels)` rows,
draw the rectangle, the confidence label and the total-targets text on the
frame, denormalizing against this frame's own `shape`. -/
def plot_boxes (rows : List Row) (frame : Frame) : Frame :=
  { frame with
    overlay := frame.overlay ++
      (rows.map (drawDetection rows.length frame.width frame.height)).flatten }

/-- One successful `player.read()` outcome: the decoded frame, the rows the
model returns for it, and the rounded elapsed time
`np.round(end_time - start_time, 3)` of the iteration. -/
structure FrameInput where
  frame : Frame
  rows : List Row
  dt : ℚ
deriving DecidableEq

/-- The Python exceptions the modelled code can raise. -/
inductive PyError where
  /-- `assert player.isOpened()` failing -/
  | assertionError
  /-- `tfcc / tfc` with `tfc == 0` -/
  | zeroDivisionError
deriving DecidableEq

/-- The local state of the `while True` loop in `ObjectDetection.__call__`:
`fc`, `fps`, `tfcc`, plus the observable effects — frames written via
`out.write`, progress lines printed, and a count of successful reads. -/
structure LoopState where
  fc : ℕ
  fps : ℚ
  tfcc : ℕ
  readCount : ℕ
  written : List Frame
  logs : List (ℤ × ℤ)
deriving DecidableEq

/-- Loop state right before the first iteration (`fc = 0`, `fps = 0`,
`tfcc = 0`, nothing yet read, written or printed). -/
def initState : LoopState :=
  { fc := 0,
    fps := 0,
    tfcc := 0,
    readCount := 0,
    written := [],
    logs := [] }

/-- The `while True` loop of `ObjectDetection.__call__`.  `tfc` is
`int(player.get(cv2.CAP_PROP_FRAME_COUNT))`; the input list plays the video
stream, an empty list being a failed `player.read()` (which breaks the
loop — the sole normal termination).  Each iteration: `fc += 1`, read,
score and plot the frame, `fps += 1/dt`; when `fc == 10`, set
`fps = int(fps/10)`, `tfcc += fc`, `fc = 0`, compute
`per_com = int(tfcc/tfc*100)` (a `ZeroDivisionError` when `tfc == 0`) and
print the progress line; finally `out.write(frame)`. -/
def runLoop (tfc : ℤ) : List FrameInput → LoopState → LoopState × Option PyError
  | [], s => ({ s with fc := s.fc + 1 }, none)
  | x :: rest, s =>
    let fc := s.fc + 1
    let frame := plot_boxes x.rows x.frame
    let fps := s.fps + 1 / x.dt
    if fc = 10 then
      let fpsAvg := pyInt (fps / 10)
      let tfcc := s.tfcc + fc
      if tfc = 0 then
        ({ s with
            fc := 0,
            fps := (fpsAvg : ℚ),
            tfcc := tfcc,
            readCount := s.readCount + 1 },
         some PyError.zeroDivisionError)
      else
        let perCom := pyInt ((tfcc : ℚ) / (tfc : ℚ) * 100)
        runLoop tfc rest
          { fc := 0,
            fps := (fpsAvg : ℚ),
            tfcc := tfcc,
            readCount := s.readCount + 1,
            written := s.written ++ [frame],
            logs := s.logs ++ [(fpsAvg, perCom)] }
    else
      runLoop tfc rest
        { s with
            fc := fc,
            fps := fps,
            readCount := s.readCount + 1,
            written := s.written ++ [frame] }

/-- The input video source as `__call__` observes it through `cv2`:
whether `player.isOpened()`, the frame dimensions, the metadata frame
count `CAP_PROP_FRAME_COUNT`, and the decodable frames themselves. -/
structure VideoSource where
  opened : Bool
  width : ℕ
  height : ℕ
  reportedFrames : ℤ
  frames : List FrameInput
deriving DecidableEq

/-- The observable outcome of one `ObjectDetection.__call__` run. -/
structure CallResult where
  /-- whether `cv2.VideoWriter(...)` was constructed -/
  outputCreated : Bool
  finalState : LoopState
  error : Option PyError
  /-- whether `player.release()` ran -/
  playerReleased : Bool
  /-- whether `out.release()` ran -/
  outReleased : Bool
deriving DecidableEq

/-- `ObjectDetection.__call__`: `assert player.isOpened()` (an open failure
aborts before the `cv2.VideoWriter` is constructed), then the frame loop;
`player.release()` runs only when the loop falls through normally, and
`out.release()` is absent from the source. -/
def callOD (src : VideoSource) : CallResult :=
  if src.opened = false then
    { outputCreated := false,
      finalState := initState,
      error := some PyError.assertionError,
      playerReleased := false,
      outReleased := false }
  else
    let r := runLoop src.reportedFrames src.frames initState
    { outputCreated := true,
      finalState := r.1,
      error := r.2,
      playerReleased := r.2.isNone,
      outReleased := false }

/-- The input path hardcoded in the driver cell's `ObjectDetection(...)`. -/
def hardcodedInput : String :=
  "C:/Users/sunfo/Downloads/이상행동 CCTV 영상/02.싸움(fight)/insidedoor_03/37-4/37-4_cam01_fight01_place02_night_spring.mp4"

/-- The output path hardcoded in the driver cell's `ObjectDetection(...)`. -/
def hardcodedOutput : String :=
  "C:/Users/sunfo/OneDrive/바탕 화면/detected_37-4_cam01_fight01_place02_night_spring.mp4"

/-- The variables bound by the driver cell before it calls `a()`. -/
structure DriverRun where
  link : String
  output_file : String
  input_file : String
  out_file : String
deriving DecidableEq

/-- The driver cell: `link = sys.argv[1]`, `output_file = sys.argv[2]`,
then `a = ObjectDetection("C:/Users/sunfo/...", "C:/Users/sunfo/...")`
with the two literal paths — the argv values are bound but never passed on. -/
def driverCell (argv1 argv2 : String) : DriverRun :=
  { link := argv1,
    output_file := argv2,
    input_file := hardcodedInput,
    out_file := hardcodedOutput }

/-- The spec's words for the windowed FPS figure: the average FPS over
exactly one 10-frame window, computed from that window's elapsed times
alone (to be compared with what the code logs). -/
def specWindowFps (dts : List ℚ) : ℤ :=
  pyInt ((dts.map (fun d => 1 / d)).sum / 10)

/-! ### Concrete sample inputs used to evaluate the development -/

/-- A 640×480 frame with nothing drawn on it yet. -/
def bareFrame : Frame := { width := 640, height := 480, overlay := [] }

/-- A detection row with normalized coordinates inside `[0,1]`. -/
def sampleRow : Row :=
  { x1 := mkRat 1 4, y1 := mkRat 1 4, x2 := mkRat 1 2, y2 := mkRat 1 2, conf := mkRat 9 10 }

/-- A read frame for which the model returns no detections, 1s elapsed. -/
def emptyInput : FrameInput := { frame := bareFrame, rows := [], dt := 1 }

/-- A 10-frame video whose every frame yields zero detections. -/
def tenEmpty : List FrameInput := List.replicate 10 emptyInput

/-- A read frame with zero detections and elapsed time 1/10 s. -/
def fastInput : FrameInput := { frame := bareFrame, rows := [], dt := 1/10 }

/-- A 20-frame video: a fast 10-frame window (0.1 s per frame) followed by
a slow one (1 s per frame). -/
def twentyMixed : List FrameInput :=
  [fastInput, fastInput, fastInput, fastInput, fastInput,
   fastInput, fastInput, fastInput, fastInput, fastInput,
   emptyInput, emptyInput, emptyInput, emptyInput, emptyInput,
   emptyInput, emptyInput, emptyInput, emptyInput, emptyInput]

/-- A source that fails to open (`player.isOpened()` is false). -/
def closedSource : VideoSource :=
  { opened := false, width := 640, height := 480, reportedFrames := 0, frames := [] }

/-- An opened source whose stream is immediately exhausted. -/
def openEmptySource : VideoSource :=
  { opened := true, width := 640, height := 480, reportedFrames := 0, frames := [] }

/-! ### Generic behaviour of the drawing step and of the loop -/

theorem plot_boxes_nil (f : Frame) : plot_boxes [] f = f := by
  simp [plot_boxes]

theorem plot_boxes_overlay_nil (f : Frame) (hf : f.overlay = []) :
    (plot_boxes [] f).overlay = [] := by
  rw [plot_boxes_nil, hf]

theorem runLoop_no_error (tfc : ℤ) (h : tfc ≠ 0) :
    ∀ (fs : List FrameInput) (s : LoopState), (runLoop tfc fs s).2 = none := by
  intro fs
  induction fs with
  | nil => intro s; simp [runLoop]
  | cons x rest ih =>
    intro s
    by_cases hfc : s.fc + 1 = 10
    · simp [runLoop, hfc, h, ih]
    · simp [runLoop, hfc, ih]

theorem runLoop_written_eq (tfc : ℤ) (h : tfc ≠ 0) :
    ∀ (fs : List FrameInput) (s : LoopState),
      (runLoop tfc fs s).1.written =
        s.written ++ fs.map (fun x => plot_boxes x.rows x.frame) := by
  intro fs
  induction fs with
  | nil => intro s; simp [runLoop]
  | cons x rest ih =>
    intro s
    by_cases hfc : s.fc + 1 = 10
    · simp [runLoop, hfc, h, ih]
    · simp [runLoop, hfc, ih]

theorem runLoop_readCount_eq (tfc : ℤ) (h : tfc ≠ 0) :
    ∀ (fs : List FrameInput) (s : LoopState),
      (runLoop tfc fs s).1.readCount = s.readCount + fs.length := by
  intro fs
  induction fs with
  | nil => intro s; simp [runLoop]
  | cons x rest ih =>
    intro s
    by_cases hfc : s.fc + 1 = 10
    · simp [runLoop, hfc, h, ih]; omega
    · simp [runLoop, hfc, ih]; omega

theorem runLoop_logs_length (tfc : ℤ) (h : tfc ≠ 0) :
    ∀ (fs : List FrameInput) (s : LoopState), s.fc ≤ 9 →
      (runLoop tfc fs s).1.logs.length = s.logs.length + (s.fc + fs.length) / 10 := by
  intro fs
  induction fs with
  | nil => intro s hs; simp [runLoop]; omega
  | cons x rest ih =>
    intro s hs
    by_cases hfc : s.fc + 1 = 10
    · have := ih
        { fc := 0,
          fps := (pyInt ((s.fps + 1 / x.dt) / 10) : ℚ),
          tfcc := s.tfcc + (s.fc + 1),
          readCount := s.readCount + 1,
          written := s.written ++ [plot_boxes x.rows x.frame],
          logs := s.logs ++
            [(pyInt ((s.fps + 1 / x.dt) / 10),
              pyInt (((s.tfcc + (s.fc + 1) : ℕ) : ℚ) / (tfc : ℚ) * 100))] }
        (by simp)
      simp only [runLoop, hfc, if_pos, if_neg h] at this ⊢
      simp at this ⊢
      omega
    · have := ih
        { s with
            fc := s.fc + 1,
            fps := s.fps + 1 / x.dt,
            readCount := s.readCount + 1,
            written := s.written ++ [plot_boxes x.rows x.frame] }
        (by simp; omega)
      simp only [runLoop, hfc, if_neg hfc] at this ⊢
      simp at this ⊢
      omega

theorem runLoop_written_le_readCount (tfc : ℤ) :
    ∀ (fs : List FrameInput) (s : LoopState),
      (runLoop tfc fs s).1.written.length + s.readCount ≤
        (runLoop tfc fs s).1.readCount + s.written.length := by
  intro fs
  induction fs with
  | nil => intro s; simp [runLoop]; omega
  | cons x rest ih =>
    intro s
    by_cases hfc : s.fc + 1 = 10
    · by_cases htfc : tfc = 0
      · simp [runLoop, hfc, htfc]; omega
      · have := ih
          { fc := 0,
            fps := (pyInt ((s.fps + 1 / x.dt) / 10) : ℚ),
            tfcc := s.tfcc + (s.fc + 1),
            readCount := s.readCount + 1,
            written := s.written ++ [plot_boxes x.rows x.frame],
            logs := s.logs ++
              [(pyInt ((s.fps + 1 / x.dt) / 10),
                pyInt (((s.tfcc + (s.fc + 1) : ℕ) : ℚ) / (tfc : ℚ) * 100))] }
        simp only [runLoop, hfc, if_pos, if_neg htfc] at this ⊢
        simp at this ⊢
        omega
    · have := ih
        { s with
            fc := s.fc + 1,
            fps := s.fps + 1 / x.dt,
            readCount := s.readCount + 1,
            written := s.written ++ [plot_boxes x.rows x.frame] }
      simp only [runLoop, hfc, if_neg hfc] at this ⊢
      simp at this ⊢
      omega

/-! ### C8 — denormalized coordinates stay within the frame -/

/-- C8: for every detection whose normalized coordinate lies in `[0,1]`,
the denormalized integer coordinate `int(c * shape)` computed against the
frame's own dimension falls within `[0, shape]`. -/
theorem c8_denorm_bounds (c : ℚ) (w : ℕ) (h0 : 0 ≤ c) (h1 : c ≤ 1) :
    0 ≤ denorm c w ∧ denorm c w ≤ (w : ℤ) := by
  have hw : (0 : ℚ) ≤ (w : ℚ) := Nat.cast_nonneg w
  have hcw0 : 0 ≤ c * (w : ℚ) := mul_nonneg h0 hw
  have hcw1 : c * (w : ℚ) ≤ (w : ℚ) := by
    calc c * (w : ℚ) ≤ 1 * (w : ℚ) := mul_le_mul_of_nonneg_right h1 hw
    _ = (w : ℚ) := one_mul _
  unfold denorm pyInt
  rw [if_pos hcw0]
  refine ⟨Int.floor_nonneg.mpr hcw0, ?_⟩
  calc ⌊c * (w : ℚ)⌋ ≤ ⌊(w : ℚ)⌋ := Int.floor_le_floor hcw1
  _ = (w : ℤ) := Int.floor_natCast w

theorem c8_witness :
    (0 : ℚ) ≤ mkRat 1 2 ∧ (mkRat 1 2 : ℚ) ≤ 1 ∧
      0 ≤ denorm (mkRat 1 2) 640 ∧ denorm (mkRat 1 2) 640 ≤ (640 : ℤ) :=
  ⟨by decide, by decide, c8_denorm_bounds (mkRat 1 2) 640 (by decide) (by decide)⟩

/-! ### C5 — open failure aborts before the output stream exists -/

/-- C5: when the input source cannot be opened (`player.isOpened()` is
false), the run aborts with the assertion error before the
`cv2.VideoWriter` output stream is created. -/
theorem c5_open_failure_aborts (src : VideoSource) (h : src.opened = false) :
    (callOD src).error = some PyError.assertionError ∧
      (callOD src).outputCreated = false := by
  simp [callOD, h]

theorem c5_witness :
    closedSource.opened = false ∧
      (callOD closedSource).error = some PyError.assertionError ∧
      (callOD closedSource).outputCreated = false :=
  ⟨rfl, c5_open_failure_aborts closedSource rfl⟩

/-! ### C4 — the command-line arguments are read but never used -/

/-- C4 counterexample: with argv = ["in.mp4", "out.avi"], the constructed
annotator does not read from the first argument's path nor write to the
second argument's path — both fields hold the hardcoded literals. -/
theorem c4_counterexample :
    (driverCell "in.mp4" "out.avi").input_file ≠ "in.mp4" ∧
      (driverCell "in.mp4" "out.avi").out_file ≠ "out.avi" :=
  ⟨by decide, by decide⟩

/-- C4 (amended): the driver cell binds the two positional command-line
arguments to `link` and `output_file` but never passes them on — for every
pair of argument values, the annotator is constructed with the hardcoded
input and output paths, so every run reads from and writes to those
regardless of the arguments. -/
theorem c4_amended_hardcoded_paths (argv1 argv2 : String) :
    (driverCell argv1 argv2).link = argv1 ∧
      (driverCell argv1 argv2).output_file = argv2 ∧
      (driverCell argv1 argv2).input_file = hardcodedInput ∧
      (driverCell argv1 argv2).out_file = hardcodedOutput :=
  ⟨rfl, rfl, rfl, rfl⟩

/-! ### C2 — stream release behaviour at loop exit -/

/-- C2 counterexample: on a run that exits the loop normally (stream
immediately exhausted), the output stream is still not released,
contradicting the claim that both streams are released at loop exit. -/
theorem c2_counterexample :
    (callOD openEmptySource).error = none ∧
      (callOD openEmptySource).outReleased = false :=
  ⟨rfl, rfl⟩

/-- C2 (amended): the output stream is never released on any run; the
input stream is released exactly when the source opened and the loop
terminated normally — an in-loop error skips `player.release()` too. -/
theorem c2_amended_release_behavior (src : VideoSource) :
    (callOD src).outReleased = false ∧
      (callOD src).playerReleased = (src.opened && (callOD src).error.isNone) := by
  by_cases h : src.opened = false
  · simp [callOD, h]
  · have h' : src.opened = true := by simpa using h
    simp [callOD, h']

/-! ### C1 — the total-targets counter is only drawn per detection -/

/-- C1 counterexample: a frame on which the model reports zero detections
carries no "Total Targets: 0" text at (30,30) — `plot_boxes` draws the
counter inside the per-detection loop, so nothing is drawn when `n = 0`. -/
theorem c1_counterexample :
    DrawOp.totalTargets 0 30 30 ∉ (plot_boxes [] bareFrame).overlay := by
  decide

/-- C1 (amended): the total-targets counter is drawn once per detection
inside `plot_boxes`'s per-detection loop, so a frame with at least one
detection carries `Total Targets: n` at (30,30), while a frame with zero
detections receives no annotation at all; a 10-frame video whose model
returns zero detections for every frame yields 10 output frames with no
annotations, and exactly one progress log line. -/
theorem c1_amended_zero_detection_run (rows : List Row) (f : Frame)
    (fs : List FrameInput)
    (hne : rows ≠ [])
    (hlen : fs.length = 10)
    (hrows : ∀ x ∈ fs, x.rows = [])
    (hov : ∀ x ∈ fs, x.frame.overlay = []) :
    DrawOp.totalTargets rows.length 30 30 ∈ (plot_boxes rows f).overlay ∧
      (runLoop 10 fs initState).2 = none ∧
      (runLoop 10 fs initState).1.written.length = 10 ∧
      (∀ g ∈ (runLoop 10 fs initState).1.written, g.overlay = []) ∧
      (runLoop 10 fs initState).1.logs.length = 1 := by
  have h10 : (10 : ℤ) ≠ 0 := by decide
  refine ⟨?_, runLoop_no_error 10 h10 fs initState, ?_, ?_, ?_⟩
  · obtain ⟨r, rs, rfl⟩ := List.exists_cons_of_ne_nil hne
    simp [plot_boxes, drawDetection]
  · rw [runLoop_written_eq 10 h10 fs initState]
    simp [initState, hlen]
  · intro g hg
    rw [runLoop_written_eq 10 h10 fs initState] at hg
    simp [initState] at hg
    obtain ⟨x, hx, rfl⟩ := hg
    rw [hrows x hx, plot_boxes_nil]
    exact hov x hx
  · rw [runLoop_logs_length 10 h10 fs initState (by simp [initState])]
    simp [initState, hlen]

theorem c1_witness :
    DrawOp.totalTargets [sampleRow].length 30 30 ∈
        (plot_boxes [sampleRow] bareFrame).overlay ∧
      (runLoop 10 tenEmpty initState).2 = none ∧
      (runLoop 10 tenEmpty initState).1.written.length = 10 ∧
      (∀ g ∈ (runLoop 10 tenEmpty initState).1.written, g.overlay = []) ∧
      (runLoop 10 tenEmpty initState).1.logs.length = 1 :=
  c1_amended_zero_detection_run [sampleRow] bareFrame tenEmpty
    (by decide) (by decide) (by decide) (by decide)

/-! ### C6 — progress-log frequency -/

/-- C6: a progress log line is emitted exactly once per 10 successfully
processed frames — over a run that reads `n` frames the loop prints
`n / 10` lines, so a run of fewer than 10 frames prints none. -/
theorem c6_progress_log_frequency (tfc : ℤ) (fs : List FrameInput) (h : tfc ≠ 0) :
    (runLoop tfc fs initState).1.logs.length = fs.length / 10 := by
  rw [runLoop_logs_length tfc h fs initState (by simp [initState])]
  simp [initState]

theorem c6_witness :
    (10 : ℤ) ≠ 0 ∧
      (runLoop 10 tenEmpty initState).1.logs.length = tenEmpty.length / 10 :=
  ⟨by decide, c6_progress_log_frequency 10 tenEmpty (by decide)⟩

/-! ### C7 — frames written versus frames read -/

/-- C7: in every run the number of frames written to the output is at most
the number of frames successfully read, and on a run that terminates
normally (stream exhaustion, which is not an error) every successfully
read frame is written exactly once, so the counts are equal. -/
theorem c7_written_read_conservation (tfc : ℤ) (fs : List FrameInput) :
    (runLoop tfc fs initState).1.written.length ≤
        (runLoop tfc fs initState).1.readCount ∧
      (tfc ≠ 0 →
        (runLoop tfc fs initState).1.written.length = fs.length ∧
        (runLoop tfc fs initState).1.readCount = fs.length ∧
        (runLoop tfc fs initState).2 = none) := by
  constructor
  · have := runLoop_written_le_readCount tfc fs initState
    simpa [initState] using this
  · intro h
    refine ⟨?_, ?_, runLoop_no_error tfc h fs initState⟩
    · rw [runLoop_written_eq tfc h fs initState]
      simp [initState]
    · rw [runLoop_readCount_eq tfc h fs initState]
      simp [initState]

theorem c7_witness :
    (runLoop 20 tenEmpty initState).1.written.length = tenEmpty.length ∧
      (runLoop 20 tenEmpty initState).1.readCount = tenEmpty.length ∧
      (runLoop 20 tenEmpty initState).2 = none :=
  (c7_written_read_conservation 20 tenEmpty).2 (by decide)

/-! ### C10 — zero reported frame count raises at the first boundary -/

/-- C10: when `CAP_PROP_FRAME_COUNT` reports 0 (live stream or missing
metadata) and the stream yields at least 10 frames, the unguarded
`int(tfcc / tfc * 100)` raises `ZeroDivisionError` at the first 10-frame
boundary: the first 9 frames are written, no progress line is printed, and
the 10th frame is read but never written. -/
theorem c10_zero_total_frames_division
    (x1 x2 x3 x4 x5 x6 x7 x8 x9 x10 : FrameInput) (rest : List FrameInput) :
    (runLoop 0 (x1 :: x2 :: x3 :: x4 :: x5 :: x6 :: x7 :: x8 :: x9 :: x10 :: rest)
        initState).2 = some PyError.zeroDivisionError ∧
      (runLoop 0 (x1 :: x2 :: x3 :: x4 :: x5 :: x6 :: x7 :: x8 :: x9 :: x10 :: rest)
        initState).1.written.length = 9 ∧
      (runLoop 0 (x1 :: x2 :: x3 :: x4 :: x5 :: x6 :: x7 :: x8 :: x9 :: x10 :: rest)
        initState).1.logs = [] ∧
      (runLoop 0 (x1 :: x2 :: x3 :: x4 :: x5 :: x6 :: x7 :: x8 :: x9 :: x10 :: rest)
        initState).1.readCount = 10 := by
  simp [runLoop, initState]

/-! ### C3 — the FPS accumulator is not reset between windows -/

/-- One full 10-frame window of the loop, started at a window boundary
(`s.fc = 0`) with a nonzero reported frame count: the window logs one
line, resets `fc` to 0, adds 10 to `tfcc`, writes the 10 plotted frames —
and replaces the FPS accumulator with the window's truncated average,
seeded by whatever value `s.fps` carried in. -/
theorem runLoop_window10 (tfc : ℤ) (h : tfc ≠ 0)
    (x1 x2 x3 x4 x5 x6 x7 x8 x9 x10 : FrameInput) (rest : List FrameInput)
    (s : LoopState) (hfc : s.fc = 0) :
    runLoop tfc (x1 :: x2 :: x3 :: x4 :: x5 :: x6 :: x7 :: x8 :: x9 :: x10 :: rest) s =
      runLoop tfc rest
        { fc := 0,
          fps := (pyInt ((s.fps + 1 / x1.dt + 1 / x2.dt + 1 / x3.dt + 1 / x4.dt +
              1 / x5.dt + 1 / x6.dt + 1 / x7.dt + 1 / x8.dt + 1 / x9.dt +
              1 / x10.dt) / 10) : ℚ),
          tfcc := s.tfcc + 10,
          readCount := s.readCount + 10,
          written := s.written ++
            [plot_boxes x1.rows x1.frame, plot_boxes x2.rows x2.frame,
             plot_boxes x3.rows x3.frame, plot_boxes x4.rows x4.frame,
             plot_boxes x5.rows x5.frame, plot_boxes x6.rows x6.frame,
             plot_boxes x7.rows x7.frame, plot_boxes x8.rows x8.frame,
             plot_boxes x9.rows x9.frame, plot_boxes x10.rows x10.frame],
          logs := s.logs ++
            [(pyInt ((s.fps + 1 / x1.dt + 1 / x2.dt + 1 / x3.dt + 1 / x4.dt +
                1 / x5.dt + 1 / x6.dt + 1 / x7.dt + 1 / x8.dt + 1 / x9.dt +
                1 / x10.dt) / 10),
              pyInt (((s.tfcc + 10 : ℕ) : ℚ) / (tfc : ℚ) * 100))] } := by
  obtain ⟨fc, fps, tfcc, rc, w, l⟩ := s
  dsimp only at hfc
  subst hfc
  simp [runLoop, h]

/-- C3 counterexample: a 20-frame run (first window at 0.1 s per frame,
second window at 1 s per frame, 20 reported frames) logs FPS figures
10 then 2, while the average over exactly the second window alone — the
spec's words — is 1: the second window's figure is contaminated by the
carried-over first-window average, so the windows are not independent. -/
theorem c3_counterexample :
    (runLoop 20 twentyMixed initState).1.logs = [(10, 50), (2, 100)] ∧
      specWindowFps [1, 1, 1, 1, 1, 1, 1, 1, 1, 1] = 1 ∧
      (2 : ℤ) ≠ specWindowFps [1, 1, 1, 1, 1, 1, 1, 1, 1, 1] := by
  refine ⟨?_, ?_, ?_⟩
  · show (runLoop 20 (fastInput :: fastInput :: fastInput :: fastInput :: fastInput ::
        fastInput :: fastInput :: fastInput :: fastInput :: fastInput ::
        emptyInput :: emptyInput :: emptyInput :: emptyInput :: emptyInput ::
        emptyInput :: emptyInput :: emptyInput :: emptyInput :: emptyInput :: [])
        initState).1.logs = [(10, 50), (2, 100)]
    rw [runLoop_window10 20 (by decide)]
    · rw [runLoop_window10 20 (by decide)]
      · norm_num [runLoop, initState, emptyInput, fastInput, pyInt]
      · rfl
    · rfl
  · norm_num [specWindowFps, pyInt]
  · norm_num [specWindowFps, pyInt]

/-- C3 (amended): every 10 processed frames the loop computes
`int(fps/10)` from the accumulated FPS value and the cumulative percent,
emits one progress line, and resets the frame counter `fc` to 0 — but the
FPS accumulator is not reset to its initial value: it is replaced by the
logged truncated average, which is carried into the next window's
accumulation, so successive windows' FPS figures are not independent. -/
theorem c3_amended_window_boundary (tfc : ℤ) (h : tfc ≠ 0)
    (x1 x2 x3 x4 x5 x6 x7 x8 x9 x10 : FrameInput) (rest : List FrameInput)
    (s : LoopState) (hfc : s.fc = 0) :
    runLoop tfc (x1 :: x2 :: x3 :: x4 :: x5 :: x6 :: x7 :: x8 :: x9 :: x10 :: rest) s =
      runLoop tfc rest
        { fc := 0,
          fps := (pyInt ((s.fps + 1 / x1.dt + 1 / x2.dt + 1 / x3.dt + 1 / x4.dt +
              1 / x5.dt + 1 / x6.dt + 1 / x7.dt + 1 / x8.dt + 1 / x9.dt +
              1 / x10.dt) / 10) : ℚ),
          tfcc := s.tfcc + 10,
          readCount := s.readCount + 10,
          written := s.written ++
            [plot_boxes x1.rows x1.frame, plot_boxes x2.rows x2.frame,
             plot_boxes x3.rows x3.frame, plot_boxes x4.rows x4.frame,
             plot_boxes x5.rows x5.frame, plot_boxes x6.rows x6.frame,
             plot_boxes x7.rows x7.frame, plot_boxes x8.rows x8.frame,
             plot_boxes x9.rows x9.frame, plot_boxes x10.rows x10.frame],
          logs := s.logs ++
            [(pyInt ((s.fps + 1 / x1.dt + 1 / x2.dt + 1 / x3.dt + 1 / x4.dt +
                1 / x5.dt + 1 / x6.dt + 1 / x7.dt + 1 / x8.dt + 1 / x9.dt +
                1 / x10.dt) / 10),
              pyInt (((s.tfcc + 10 : ℕ) : ℚ) / (tfc : ℚ) * 100))] } :=
  runLoop_window10 tfc h x1 x2 x3 x4 x5 x6 x7 x8 x9 x10 rest s hfc

theorem c3_witness :
    (10 : ℤ) ≠ 0 ∧ initState.fc = 0 ∧
      runLoop 10 [emptyInput, emptyInput, emptyInput, emptyInput, emptyInput,
          emptyInput, emptyInput, emptyInput, emptyInput, emptyInput] initState =
        runLoop 10 []
          { fc := 0,
            fps := (pyInt ((initState.fps + 1 / emptyInput.dt + 1 / emptyInput.dt +
                1 / emptyInput.dt + 1 / emptyInput.dt + 1 / emptyInput.dt +
                1 / emptyInput.dt + 1 / emptyInput.dt + 1 / emptyInput.dt +
                1 / emptyInput.dt + 1 / emptyInput.dt) / 10) : ℚ),
            tfcc := initState.tfcc + 10,
            readCount := initState.readCount + 10,
            written := initState.written ++
              [plot_boxes emptyInput.rows emptyInput.frame,
               plot_boxes emptyInput.rows emptyInput.frame,
               plot_boxes emptyInput.rows emptyInput.frame,
               plot_boxes emptyInput.rows emptyInput.frame,
               plot_boxes emptyInput.rows emptyInput.frame,
               plot_boxes emptyInput.rows emptyInput.frame,
               plot_boxes emptyInput.rows emptyInput.frame,
               plot_boxes emptyInput.rows emptyInput.frame,
               plot_boxes emptyInput.rows emptyInput.frame,
               plot_boxes emptyInput.rows emptyInput.frame],
            logs := initState.logs ++
              [(pyInt ((initState.fps + 1 / emptyInput.dt + 1 / emptyInput.dt +
                  1 / emptyInput.dt + 1 / emptyInput.dt + 1 / emptyInput.dt +
                  1 / emptyInput.dt + 1 / emptyInput.dt + 1 / emptyInput.dt +
                  1 / emptyInput.dt + 1 / emptyInput.dt) / 10),
                pyInt (((initState.tfcc + 10 : ℕ) : ℚ) / ((10 : ℤ) : ℚ) * 100))] } :=
  ⟨by decide, rfl,
    c3_amended_window_boundary 10 (by decide) emptyInput emptyInput emptyInput
      emptyInput emptyInput emptyInput emptyInput emptyInput emptyInput emptyInput
      [] initState rfl⟩
